import Mathlib

/-!
Shallow embedding of the PostGIS service layer of this repository
(src/app/service.py together with the row shapes of src/app/models.py and
the schema of src/app/alembic/versions/0001_init.py).

Modelling conventions:
* UUIDs and timestamps are abstract `Nat` values; the caller-side sources of
  nondeterminism (`uuid.uuid4()`, `now()`) become explicit parameters.
* Python floats (areas, distances, coordinates) are modelled as `ℚ`.
* The spatial engine (PostGIS `ST_Buffer`, `ST_Area`, `ST_Distance`,
  `ST_DWithin`, `ST_MakePoint`) is the external black box of the spec: its
  three geometric primitives are fields of a `Geo` record and left
  uninterpreted, except that `ST_DWithin g q r` is `dist g q ≤ r`, which is
  its documented meaning.
* The two tables are lists of rows in physical insertion order; SQL `INSERT`
  appends, `UPDATE ... WHERE id = x` maps over the list, and the `WHERE
  id = :x` lookups are `List.find?` on the (unique) primary key.
* The one failure mode that the application logic itself can produce is the
  primary-key conflict on `footprints.feature_id`; the `try/except/rollback`
  of `process_feature` is an `Except` transaction whose error branch returns
  the original state.
-/

/-- A geography POINT as produced by `ST_MakePoint(lon, lat)` (SRID 4326). -/
structure Point where
  lon : ℚ
  lat : ℚ
deriving DecidableEq

/-- A geography POLYGON. Buffer polygons of points are determined by a center
and a radius; what the engine makes of them is up to the `Geo` black box. -/
structure Polygon where
  center : Point
  radius : Int
deriving DecidableEq

/-- The spatial database engine of the spec, treated as a black box exposing
geometric primitives: `buffer` is `ST_Buffer`, `area` is `ST_Area`, and
`dist` is geodesic `ST_Distance`; `ST_DWithin g q r` is `dist g q ≤ r`. -/
structure Geo where
  buffer : Point → Int → Polygon
  area : Polygon → ℚ
  dist : Point → Point → ℚ

/-- ST_MakePoint takes longitude first, then latitude. -/
def makePoint (lon lat : ℚ) : Point := ⟨lon, lat⟩

/-- One character of decimal text: the digit `d` as a character. -/
def digitChar (d : Nat) : Char := Char.ofNat (48 + d)

/-- Fuel-indexed decimal rendering of a natural number, most significant digit
first; structural in the fuel so that the kernel can evaluate it. -/
def decCharsAux : Nat → Nat → List Char
  | 0, _ => []
  | fuel + 1, n =>
    if n < 10 then [digitChar n]
    else decCharsAux fuel (n / 10) ++ [digitChar (n % 10)]

/-- Decimal text of a natural number, modelling Python `str` on the abstract
`Nat`-valued identifiers of the embedding. -/
def natString (n : Nat) : String := List.asString (decCharsAux (n + 1) n)

/-- Modelled rendering of `datetime.isoformat()`: timestamps are abstract
clock readings, rendered as their decimal text. -/
def isoformat (t : Nat) : String := natString t

/-- Reading decimal text back into a number, the inverse of `natString`. -/
def ofDecChars (l : List Char) : Nat :=
  l.foldl (fun acc c => 10 * acc + (c.toNat - 48)) 0

/-- Parsing a rendered timestamp back, witnessing round-trippability. -/
def parseTs (s : String) : Nat := ofDecChars s.data

/-- A row of the `features` table (src/app/models.py, class Feature). -/
structure Feature where
  id : Nat
  name : String
  status : String
  attempts : Int
  created_at : Nat
  updated_at : Nat
  geom : Point
deriving DecidableEq

/-- A row of the `footprints` table (src/app/models.py, class Footprint). -/
structure Footprint where
  feature_id : Nat
  buffer_m : Int
  area_m2 : ℚ
  created_at : Nat
  geom : Polygon
deriving DecidableEq

/-- The database: both tables, rows in physical insertion order. -/
structure DB where
  features : List Feature
  footprints : List Footprint
deriving DecidableEq

/-- Lookup `SELECT ... FROM features WHERE id = :feature_id` on the primary key. -/
def findFeature (db : DB) (fid : Nat) : Option Feature :=
  db.features.find? (fun f => f.id == fid)

/-- Lookup of the optional footprint row joined by `LEFT JOIN footprints fp ON
f.id = fp.feature_id`; `feature_id` is the primary key, so at most one row. -/
def findFootprint (db : DB) (fid : Nat) : Option Footprint :=
  db.footprints.find? (fun fp => fp.feature_id == fid)

/-- Embedding of `create_feature(db, name, lat, lon)`: the generated
`uuid.uuid4()` and the `now()` reading are the explicit `newId` and `t`
parameters. Inserts one row with status queued, attempts 0, and geometry
`ST_MakePoint(lon, lat)`, and returns the new identifier. -/
def create_feature (db : DB) (newId : Nat) (name : String) (lat lon : ℚ) (t : Nat) :
    DB × Nat :=
  ({ db with
      features := db.features ++
        [{ id := newId, name := name, status := "queued", attempts := 0,
           created_at := t, updated_at := t, geom := makePoint lon lat }] },
   newId)

/-- Embedding of the `INSERT INTO footprints ... SELECT ... ST_Area(ST_Buffer(f.geom,
:buffer_m)) ... ST_Buffer(f.geom, :buffer_m) FROM features f WHERE f.id = :feature_id`
statement of `process_feature`. The statement raises a unique-constraint violation
when a footprint row with this primary key already exists. -/
def insertFootprint (geo : Geo) (db : DB) (f : Feature) (buffer_m : Int) (t : Nat) :
    Except String DB :=
  if (db.footprints.find? (fun fp => fp.feature_id == f.id)).isSome then
    .error "duplicate key value violates unique constraint on footprints"
  else
    .ok { db with
      footprints := db.footprints ++
        [{ feature_id := f.id, buffer_m := buffer_m,
           area_m2 := geo.area (geo.buffer f.geom buffer_m), created_at := t,
           geom := geo.buffer f.geom buffer_m }] }

/-- Embedding of the `UPDATE features SET status = 'done', updated_at = :updated_at,
attempts = attempts + 1 WHERE id = :feature_id` statement of `process_feature`. -/
def updateFeatureDone (db : DB) (fid : Nat) (t : Nat) : DB :=
  { db with
    features := db.features.map (fun g =>
      if g.id == fid then
        { g with status := "done", attempts := g.attempts + 1, updated_at := t }
      else g) }

/-- Embedding of `process_feature(db, feature_id, buffer_m)`: existence check,
then the footprint insert and the status update committed together; the
`except Exception / rollback / return False` of the source is the error branch,
which returns the boolean False with the original state. The early return on an
unknown identifier commits nothing either. -/
def process_feature (geo : Geo) (db : DB) (fid : Nat) (buffer_m : Int) (t : Nat) :
    Bool × DB :=
  match findFeature db fid with
  | none => (false, db)
  | some f =>
    match insertFootprint geo db f buffer_m t with
    | .error _ => (false, db)
    | .ok db1 => (true, updateFeatureDone db1 fid t)

/-- The flattened record returned by `get_feature`: Python dict with the
feature columns, rendered id and timestamps, and the optional footprint
columns of the left outer join. -/
structure FeatureRecord where
  id : String
  name : String
  status : String
  attempts : Int
  created_at : Option String
  updated_at : Option String
  buffer_m : Option Int
  buffer_area_m2 : Option ℚ
deriving DecidableEq

/-- Embedding of `get_feature(db, feature_id)`: left outer join of the feature
with its optional footprint, `None` (the not-found sentinel) when no feature
matches. The `created_at.isoformat() if result.created_at else None` guards of
the source always take the isoformat branch here: a datetime value is never
falsy and the columns the service writes are non-null. -/
def get_feature (db : DB) (fid : Nat) : Option FeatureRecord :=
  match findFeature db fid with
  | none => none
  | some f =>
    let fp := findFootprint db fid
    some { id := natString f.id, name := f.name, status := f.status,
           attempts := f.attempts,
           created_at := some (isoformat f.created_at),
           updated_at := some (isoformat f.updated_at),
           buffer_m := fp.map Footprint.buffer_m,
           buffer_area_m2 := fp.map Footprint.area_m2 }

/-- A record returned by `features_near`: a `FeatureRecord` plus the
`distance_m` annotation. -/
structure NearRecord where
  id : String
  name : String
  status : String
  attempts : Int
  created_at : Option String
  updated_at : Option String
  buffer_m : Option Int
  buffer_area_m2 : Option ℚ
  distance_m : Option ℚ
deriving DecidableEq

/-- Stable insertion step for `ORDER BY`: the new row goes after every row whose
key is less than or equal to its own. -/
def orderByInsert (key : α → ℚ) (x : α) : List α → List α
  | [] => [x]
  | y :: ys => if key y ≤ key x then y :: orderByInsert key x ys else x :: y :: ys

/-- The `ORDER BY distance_m` of `features_near`: ascending stable sort by key. -/
def orderBy (key : α → ℚ) : List α → List α
  | [] => []
  | x :: xs => orderByInsert key x (orderBy key xs)

/-- The Python dict built for one row of `features_near`. The source renders
the distance with `float(result.distance_m) if result.distance_m else None`:
a distance of exactly 0 is falsy in Python, so it renders as None. -/
def nearRecord (db : DB) (f : Feature) (d : ℚ) : NearRecord :=
  { id := natString f.id, name := f.name, status := f.status,
    attempts := f.attempts,
    created_at := some (isoformat f.created_at),
    updated_at := some (isoformat f.updated_at),
    buffer_m := (findFootprint db f.id).map Footprint.buffer_m,
    buffer_area_m2 := (findFootprint db f.id).map Footprint.area_m2,
    distance_m := if d = 0 then none else some d }

/-- Embedding of `features_near(db, lat, lon, radius_m)`: the rows whose point
satisfies `ST_DWithin(f.geom, query, radius_m)`, i.e. geodesic distance at most
`radius_m`, each with its `ST_Distance` from `ST_MakePoint(lon, lat)`, sorted
ascending by that distance, then rendered to dicts. -/
def features_near (geo : Geo) (db : DB) (lat lon : ℚ) (radius_m : Int) :
    List NearRecord :=
  let q := makePoint lon lat
  let rows :=
    (db.features.filter (fun f => decide (geo.dist f.geom q ≤ (radius_m : ℚ)))).map
      (fun f => (f, geo.dist f.geom q))
  (orderBy (fun p => p.2) rows).map (fun p => nearRecord db p.1 p.2)

/-- The database states reachable through the service layer, starting from the
freshly migrated empty schema: `create_feature` with a fresh identifier (the
generated UUID is new), and `process_feature` on any input (its failure cases
leave the state unchanged). `get_feature` and `features_near` do not write. -/
inductive Reachable (geo : Geo) : DB → Prop where
  | empty : Reachable geo ⟨[], []⟩
  | create {db : DB} (newId : Nat) (name : String) (lat lon : ℚ) (t : Nat)
      (hfresh : findFeature db newId = none) (h : Reachable geo db) :
      Reachable geo (create_feature db newId name lat lon t).1
  | process {db : DB} (fid : Nat) (buffer_m : Int) (t : Nat) (h : Reachable geo db) :
      Reachable geo (process_feature geo db fid buffer_m t).2

/-- A concrete computable instantiation of the spatial black box, used to
exercise the embedding on closed inputs: buffers remember their center and
radius, the area is a fixed positive function of the radius, and the distance
is the discrete metric (zero exactly on equal points). -/
def flatGeo : Geo where
  buffer p r := ⟨p, r⟩
  area poly := ((poly.radius * poly.radius + 1 : Int) : ℚ)
  dist p q := if p = q then 0 else 1

/-- The empty database, the state right after the schema migration runs. -/
def emptyDB : DB := ⟨[], []⟩

/-- Example state: one feature created at latitude 3, longitude 4. -/
def exDb5 : DB := (create_feature emptyDB 5 "A" 3 4 10).1

/-- Example state: one feature created at latitude 1, longitude 2. -/
def exDb6 : DB := (create_feature emptyDB 8 "B" 1 2 20).1

/-- Example state: one feature created at latitude 0, longitude 0. -/
def exDb7 : DB := (create_feature emptyDB 9 "C" 0 0 30).1

/-- The feature row stored in `exDb7`. -/
def exFeat7 : Feature :=
  { id := 9, name := "C", status := "queued", attempts := 0,
    created_at := 30, updated_at := 30, geom := makePoint 0 0 }

/-- The record `features_near` renders for `exFeat7` at distance 0. -/
def exRec7 : NearRecord := nearRecord exDb7 exFeat7 0

/-- Example state: a created feature that was then processed successfully. -/
def exDb10 : DB :=
  (process_feature flatGeo (create_feature emptyDB 3 "D" 6 7 40).1 3 500 50).2

/-- The footprint row stored in `exDb10`. -/
def exFp10 : Footprint :=
  { feature_id := 3, buffer_m := 500,
    area_m2 := flatGeo.area (flatGeo.buffer (makePoint 7 6) 500), created_at := 50,
    geom := flatGeo.buffer (makePoint 7 6) 500 }
theorem digitChar_toNat {d : Nat} (hd : d < 10) : (digitChar d).toNat = 48 + d := by
  interval_cases d <;> decide

theorem ofDecChars_decCharsAux (fuel : Nat) :
    ∀ n acc, n < 10 ^ fuel →
      (decCharsAux fuel n).foldl (fun acc c => 10 * acc + (c.toNat - 48)) acc =
        acc * 10 ^ (decCharsAux fuel n).length + n := by
  induction fuel with
  | zero =>
    intro n acc hn
    have : n = 0 := Nat.lt_one_iff.mp hn
    simp [decCharsAux, this]
  | succ fuel ih =>
    intro n acc hn
    by_cases h10 : n < 10
    · simp only [decCharsAux, if_pos h10, List.foldl_cons, List.foldl_nil,
        List.length_cons, List.length_nil, digitChar_toNat h10]
      omega
    · have hdiv : n / 10 < 10 ^ fuel := by
        have : n < 10 ^ fuel * 10 := by
          calc n < 10 ^ (fuel + 1) := hn
          _ = 10 ^ fuel * 10 := by ring
        exact Nat.div_lt_iff_lt_mul (by norm_num) |>.mpr this
      have hmod : n % 10 < 10 := Nat.mod_lt _ (by norm_num)
      simp only [decCharsAux, if_neg h10, List.foldl_append, List.length_append,
        List.length_cons, List.length_nil]
      rw [ih (n / 10) acc hdiv]
      simp [digitChar_toNat hmod, pow_succ]
      have := Nat.div_add_mod n 10
      ring_nf
      omega

theorem parseTs_isoformat (t : Nat) : parseTs (isoformat t) = t := by
  have hfuel : t < 10 ^ (t + 1) := by
    calc t < 10 ^ t := Nat.lt_pow_self (by norm_num) t
    _ ≤ 10 ^ (t + 1) := Nat.pow_le_pow_right (by norm_num) (Nat.le_succ t)
  have h := ofDecChars_decCharsAux (t + 1) t 0 hfuel
  simpa [parseTs, isoformat, natString, ofDecChars, List.asString] using h

/-- Round-trippability of the timestamp rendering: `isoformat` is injective. -/
theorem isoformat_injective : Function.Injective isoformat :=
  Function.LeftInverse.injective parseTs_isoformat


theorem findFeature_id {db : DB} {fid : Nat} {f : Feature}
    (h : findFeature db fid = some f) : f.id = fid := by
  have := List.find?_some h
  simpa using this

theorem find?_map_update (l : List Feature) (fid : Nat) (t : Nat) :
    (l.map (fun g => if g.id == fid then
        { g with status := "done", attempts := g.attempts + 1, updated_at := t }
      else g)).find? (fun f => f.id == fid) =
    (l.find? (fun f => f.id == fid)).map (fun g =>
        { g with status := "done", attempts := g.attempts + 1, updated_at := t }) := by
  induction l with
  | nil => rfl
  | cons g l ih =>
    by_cases h : g.id = fid
    · simp [List.find?_cons, h]
    · have hb : (g.id == fid) = false := by simpa using h
      simp only [List.map_cons, List.find?_cons, hb, Bool.false_eq_true, if_false, ih]

theorem find?_append_none {α : Type} (p : α → Bool) (l1 l2 : List α)
    (h : l1.find? p = none) : (l1 ++ l2).find? p = l2.find? p := by
  simp [List.find?_append, h]

theorem mem_orderByInsert {α : Type} (key : α → ℚ) (x a : α) (l : List α) :
    a ∈ orderByInsert key x l ↔ a = x ∨ a ∈ l := by
  induction l with
  | nil => simp [orderByInsert]
  | cons y ys ih =>
    by_cases h : key y ≤ key x
    · simp only [orderByInsert, if_pos h, List.mem_cons, ih]
      tauto
    · simp only [orderByInsert, if_neg h, List.mem_cons]

theorem mem_orderBy {α : Type} (key : α → ℚ) (a : α) (l : List α) :
    a ∈ orderBy key l ↔ a ∈ l := by
  induction l with
  | nil => simp [orderBy]
  | cons x xs ih => simp [orderBy, mem_orderByInsert, ih]

/-- C2: whenever `process_feature` reports failure, the whole transaction has
been rolled back: the returned state is exactly the state before the call, for
both tables. The failure surfaces only as the boolean False of the result,
never as an exception. -/
theorem process_feature_rollback (geo : Geo) (db : DB) (fid : Nat) (r : Int) (t : Nat)
    (hfail : (process_feature geo db fid r t).1 = false) :
    (process_feature geo db fid r t).2 = db := by
  unfold process_feature at *
  cases hf : findFeature db fid with
  | none => simp [hf]
  | some f =>
    cases hins : insertFootprint geo db f r t with
    | error e => simp [hf, hins]
    | ok db1 => simp [hf, hins] at hfail

/-- C2 witness: a concrete failing call leaves the database unchanged. -/
theorem process_feature_rollback_witness :
    (process_feature flatGeo emptyDB 0 500 0).1 = false ∧
    (process_feature flatGeo emptyDB 0 500 0).2 = emptyDB :=
  ⟨by decide, process_feature_rollback flatGeo emptyDB 0 500 0 (by decide)⟩

/-- C3: processing an identifier that matches no feature returns False and has
no side effects on either table. -/
theorem process_feature_unknown (geo : Geo) (db : DB) (fid : Nat) (r : Int) (t : Nat)
    (h : findFeature db fid = none) :
    process_feature geo db fid r t = (false, db) := by
  unfold process_feature
  simp [h]

/-- C3 witness: processing a nonexistent identifier on a concrete nonempty
database fails and leaves both tables as they were. -/
theorem process_feature_unknown_witness :
    findFeature exDb5 99 = none ∧ process_feature flatGeo exDb5 99 500 11 = (false, exDb5) :=
  ⟨by decide, process_feature_unknown flatGeo exDb5 99 500 11 (by decide)⟩

/-- C9: re-processing a feature that already has a footprint row attempts a
second insert with the same primary key; the insert statement fails with a
unique-constraint violation, the transaction fails, and the call returns False
with both tables unchanged. -/
theorem process_feature_reprocess_conflict (geo : Geo) (db : DB) (fid : Nat) (r : Int)
    (t : Nat) (f : Feature) (fp : Footprint)
    (hf : findFeature db fid = some f) (hfp : findFootprint db fid = some fp) :
    (∃ e, insertFootprint geo db f r t = Except.error e) ∧
    process_feature geo db fid r t = (false, db) := by
  have hid : f.id = fid := findFeature_id hf
  have hsome : (db.footprints.find? (fun x => x.feature_id == f.id)).isSome := by
    rw [hid]
    unfold findFootprint at hfp
    simp [hfp]
  constructor
  · exact ⟨"duplicate key value violates unique constraint on footprints",
      by unfold insertFootprint; simp [hsome]⟩
  · unfold process_feature insertFootprint
    simp [hf, hsome]

/-- C9 witness: a concrete done feature, processed a second time, produces the
conflict and the unchanged state. -/
theorem process_feature_reprocess_conflict_witness :
    findFeature exDb10 3 =
      some { id := 3, name := "D", status := "done", attempts := 1,
             created_at := 40, updated_at := 50, geom := makePoint 7 6 } ∧
    findFootprint exDb10 3 = some exFp10 ∧
    process_feature flatGeo exDb10 3 500 60 = (false, exDb10) := by
  refine ⟨by decide, by decide, ?_⟩
  exact (process_feature_reprocess_conflict flatGeo exDb10 3 500 60
    { id := 3, name := "D", status := "done", attempts := 1,
      created_at := 40, updated_at := 50, geom := makePoint 7 6 }
    exFp10 (by decide) (by decide)).2

/-- C10: in every database state reachable through the service layer, each
footprint row's stored area equals the engine's area of its stored polygon,
because the single inserting statement computes both from the same buffer
expression and footprints are never updated in place. -/
theorem footprint_area_consistent (geo : Geo) (db : DB) (h : Reachable geo db) :
    ∀ fp ∈ db.footprints, fp.area_m2 = geo.area fp.geom := by
  induction h with
  | empty => intro fp hfp; simp at hfp
  | create newId name lat lon t hfresh h ih =>
    intro fp hfp
    exact ih fp hfp
  | process fid r t h ih =>
    rename_i db'
    intro fp hfp
    unfold process_feature at hfp
    cases hf : findFeature db' fid with
    | none => simp only [hf] at hfp; exact ih fp hfp
    | some f =>
      simp only [hf] at hfp
      cases hins : insertFootprint geo db' f r t with
      | error e => simp only [hins] at hfp; exact ih fp hfp
      | ok db1 =>
        simp only [hins] at hfp
        unfold insertFootprint at hins
        by_cases hdup : (db'.footprints.find? (fun x => x.feature_id == f.id)).isSome
        · simp [hdup] at hins
        · simp only [hdup, if_neg, Bool.false_eq_true, if_false] at hins
          cases hins
          simp only [updateFeatureDone] at hfp
          simp only [List.mem_append, List.mem_singleton] at hfp
          rcases hfp with hold | hnew
          · exact ih fp hold
          · subst hnew; rfl

/-- C10 witness: a concrete reachable state, created then processed, whose
footprint row satisfies the invariant. -/
theorem footprint_area_consistent_witness :
    Reachable flatGeo exDb10 ∧ exFp10 ∈ exDb10.footprints ∧
    exFp10.area_m2 = flatGeo.area exFp10.geom := by
  have hreach : Reachable flatGeo exDb10 :=
    Reachable.process 3 500 50
      (Reachable.create 3 "D" 6 7 40 (by decide) Reachable.empty)
  exact ⟨hreach, by decide, footprint_area_consistent flatGeo exDb10 hreach exFp10 (by decide)⟩

/-- C8: creating a feature with a fresh identifier inserts exactly one feature
row, queued with zero attempts and the point built from the given
longitude/latitude pair, returns the new identifier, and leaves footprints
untouched; fetching the new identifier before processing returns status
queued, attempts 0, and absent buffer fields. The freshness hypotheses model
that the generated UUID is new: a colliding insert would instead violate the
features primary key, and a footprint for an id that does not yet exist is
ruled out by the foreign key. -/
theorem create_feature_spec (db : DB) (newId : Nat) (name : String) (lat lon : ℚ)
    (t : Nat) (hfresh : findFeature db newId = none)
    (hnofp : findFootprint db newId = none) :
    (create_feature db newId name lat lon t).2 = newId ∧
    (create_feature db newId name lat lon t).1.features =
      db.features ++ [{ id := newId, name := name, status := "queued", attempts := 0,
                        created_at := t, updated_at := t, geom := makePoint lon lat }] ∧
    (create_feature db newId name lat lon t).1.footprints = db.footprints ∧
    get_feature (create_feature db newId name lat lon t).1 newId =
      some { id := natString newId, name := name, status := "queued", attempts := 0,
             created_at := some (isoformat t), updated_at := some (isoformat t),
             buffer_m := none, buffer_area_m2 := none } := by
  refine ⟨rfl, rfl, rfl, ?_⟩
  unfold get_feature
  have hfind : findFeature (create_feature db newId name lat lon t).1 newId =
      some { id := newId, name := name, status := "queued", attempts := 0,
             created_at := t, updated_at := t, geom := makePoint lon lat } := by
    unfold findFeature create_feature
    unfold findFeature at hfresh
    simp only []
    rw [find?_append_none _ _ _ hfresh]
    simp [List.find?_cons]
  have hfp : findFootprint (create_feature db newId name lat lon t).1 newId = none := by
    unfold findFootprint create_feature
    unfold findFootprint at hnofp
    exact hnofp
  rw [hfind, hfp]
  rfl

/-- C8 witness: creating a concrete feature in a concrete database and fetching
it back. -/
theorem create_feature_spec_witness :
    findFeature exDb5 12 = none ∧ findFootprint exDb5 12 = none ∧
    get_feature (create_feature exDb5 12 "New" 1 2 77).1 12 =
      some { id := natString 12, name := "New", status := "queued", attempts := 0,
             created_at := some (isoformat 77), updated_at := some (isoformat 77),
             buffer_m := none, buffer_area_m2 := none } :=
  ⟨by decide, by decide,
    (create_feature_spec exDb5 12 "New" 1 2 77 (by decide) (by decide)).2.2.2⟩

/-- C4: `get_feature` returns the not-found sentinel None exactly when no
feature has the identifier (and, being a total function, never raises);
otherwise it returns the flattened left-outer-join record, whose buffer fields
are None exactly when no footprint row exists, with timestamps rendered as
round-trippable text. -/
theorem get_feature_spec (db : DB) (fid : Nat) :
    (get_feature db fid = none ↔ findFeature db fid = none) ∧
    (∀ f, findFeature db fid = some f →
      get_feature db fid =
        some { id := natString f.id, name := f.name, status := f.status,
               attempts := f.attempts,
               created_at := some (isoformat f.created_at),
               updated_at := some (isoformat f.updated_at),
               buffer_m := (findFootprint db fid).map Footprint.buffer_m,
               buffer_area_m2 := (findFootprint db fid).map Footprint.area_m2 }) ∧
    (∀ rec, get_feature db fid = some rec →
      (rec.buffer_m = none ∧ rec.buffer_area_m2 = none ↔ findFootprint db fid = none)) ∧
    (∀ t, parseTs (isoformat t) = t) := by
  refine ⟨?_, ?_, ?_, parseTs_isoformat⟩
  · unfold get_feature
    cases hf : findFeature db fid <;> simp
  · intro f hf
    unfold get_feature
    simp only [hf]
  · intro rec hrec
    unfold get_feature at hrec
    cases hf : findFeature db fid with
    | none =>
      simp only [hf] at hrec
      exact Option.noConfusion hrec
    | some f =>
      simp only [hf, Option.some.injEq] at hrec
      subst hrec
      cases hfp : findFootprint db fid <;> simp [hfp]

/-- C4 witness: concrete fetches, one hitting a feature without a footprint,
exercising the spec. -/
theorem get_feature_spec_witness :
    get_feature exDb6 8 =
      some { id := natString 8, name := "B", status := "queued", attempts := 0,
             created_at := some (isoformat 20), updated_at := some (isoformat 20),
             buffer_m := none, buffer_area_m2 := none } :=
  (get_feature_spec exDb6 8).2.1
    { id := 8, name := "B", status := "queued", attempts := 0,
      created_at := 20, updated_at := 20, geom := makePoint 2 1 } (by decide)

/-- C1: processing an existing feature with no footprint yet succeeds as one
atomic state change: exactly one footprint row is inserted, carrying the given
radius, the engine's buffer polygon of the feature's point at that radius, and
the engine's area of that same buffer; the feature's status becomes done, its
attempts are bumped by one, and its updated timestamp is refreshed. Fetching
the feature afterwards returns status done, attempts bumped (1 when they were
0 before), the radius as buffer_m, and the area, positive whenever the
engine's area of the buffer is positive (hypothesis `hpos`, the black-box
guarantee for a positive radius). -/
theorem process_feature_success (geo : Geo) (db : DB) (fid : Nat) (r : Int) (t : Nat)
    (f : Feature) (hf : findFeature db fid = some f)
    (hnofp : findFootprint db fid = none)
    (hpos : 0 < geo.area (geo.buffer f.geom r)) :
    process_feature geo db fid r t =
      (true,
        { features := db.features.map (fun g =>
            if g.id == fid then
              { g with status := "done", attempts := g.attempts + 1, updated_at := t }
            else g),
          footprints := db.footprints ++
            [{ feature_id := fid, buffer_m := r,
               area_m2 := geo.area (geo.buffer f.geom r), created_at := t,
               geom := geo.buffer f.geom r }] }) ∧
    get_feature (process_feature geo db fid r t).2 fid =
      some { id := natString fid, name := f.name, status := "done",
             attempts := f.attempts + 1,
             created_at := some (isoformat f.created_at),
             updated_at := some (isoformat t),
             buffer_m := some r,
             buffer_area_m2 := some (geo.area (geo.buffer f.geom r)) } ∧
    (f.attempts = 0 →
      (get_feature (process_feature geo db fid r t).2 fid).map FeatureRecord.attempts =
        some 1) ∧
    0 < geo.area (geo.buffer f.geom r) := by
  have hid : f.id = fid := findFeature_id hf
  subst hid
  have hnb : (db.footprints.find? (fun x => x.feature_id == f.id)).isSome = false := by
    unfold findFootprint at hnofp
    simp [hnofp]
  have hins : insertFootprint geo db f r t =
      Except.ok { db with footprints := db.footprints ++
        [{ feature_id := f.id, buffer_m := r,
           area_m2 := geo.area (geo.buffer f.geom r), created_at := t,
           geom := geo.buffer f.geom r }] } := by
    unfold insertFootprint
    simp [hnb]
  have hproc : process_feature geo db f.id r t =
      (true,
        { features := db.features.map (fun g =>
            if g.id == f.id then
              { g with status := "done", attempts := g.attempts + 1, updated_at := t }
            else g),
          footprints := db.footprints ++
            [{ feature_id := f.id, buffer_m := r,
               area_m2 := geo.area (geo.buffer f.geom r), created_at := t,
               geom := geo.buffer f.geom r }] }) := by
    unfold process_feature
    simp only [hf, hins]
    rfl
  have hfind : findFeature (process_feature geo db f.id r t).2 f.id =
      some { f with status := "done", attempts := f.attempts + 1, updated_at := t } := by
    rw [hproc]
    unfold findFeature
    rw [find?_map_update]
    unfold findFeature at hf
    rw [hf]
    rfl
  have hfpfind : findFootprint (process_feature geo db f.id r t).2 f.id =
      some { feature_id := f.id, buffer_m := r,
             area_m2 := geo.area (geo.buffer f.geom r), created_at := t,
             geom := geo.buffer f.geom r } := by
    rw [hproc]
    unfold findFootprint
    unfold findFootprint at hnofp
    rw [find?_append_none _ _ _ hnofp]
    simp [List.find?_cons]
  have hget : get_feature (process_feature geo db f.id r t).2 f.id =
      some { id := natString f.id, name := f.name, status := "done",
             attempts := f.attempts + 1,
             created_at := some (isoformat f.created_at),
             updated_at := some (isoformat t),
             buffer_m := some r,
             buffer_area_m2 := some (geo.area (geo.buffer f.geom r)) } := by
    unfold get_feature
    rw [hfind, hfpfind]
    rfl
  exact ⟨hproc, hget, fun h0 => by rw [hget]; simp [h0], hpos⟩

/-- C1 witness: a concrete queued feature processed at radius 500, then
fetched back done with one attempt and the buffer columns filled. -/
theorem process_feature_success_witness :
    (process_feature flatGeo exDb7 9 500 44).1 = true ∧
    get_feature (process_feature flatGeo exDb7 9 500 44).2 9 =
      some { id := natString 9, name := "C", status := "done", attempts := 1,
             created_at := some (isoformat 30), updated_at := some (isoformat 44),
             buffer_m := some 500,
             buffer_area_m2 := some (flatGeo.area (flatGeo.buffer (makePoint 0 0) 500)) } := by
  have h := process_feature_success flatGeo exDb7 9 500 44 exFeat7
    (by decide) (by decide) (by decide)
  exact ⟨by rw [h.1], by simpa using h.2.1⟩

/-- C7: with the state fixed, enlarging the search radius only adds results:
every record returned by a nearby search at radius r1 is also returned at any
radius r2 at least as large. -/
theorem features_near_mono (geo : Geo) (db : DB) (lat lon : ℚ) (r1 r2 : Int)
    (hr : r1 ≤ r2) (rec : NearRecord)
    (hmem : rec ∈ features_near geo db lat lon r1) :
    rec ∈ features_near geo db lat lon r2 := by
  unfold features_near at hmem ⊢
  simp only [List.mem_map] at hmem ⊢
  obtain ⟨p, hp, hrec⟩ := hmem
  refine ⟨p, ?_, hrec⟩
  rw [mem_orderBy] at hp ⊢
  simp only [List.mem_map] at hp ⊢
  obtain ⟨f, hf, hpf⟩ := hp
  refine ⟨f, ?_, hpf⟩
  simp only [List.mem_filter, decide_eq_true_eq] at hf ⊢
  refine ⟨hf.1, le_trans hf.2 ?_⟩
  exact_mod_cast hr

/-- C7 witness: a record found at radius 0 is still found at radius 7. -/
theorem features_near_mono_witness :
    (0 : Int) ≤ 7 ∧ exRec7 ∈ features_near flatGeo exDb7 0 0 0 ∧
    exRec7 ∈ features_near flatGeo exDb7 0 0 7 :=
  ⟨by decide, by decide,
    features_near_mono flatGeo exDb7 0 0 0 7 (by decide) exRec7 (by decide)⟩

/-- C5 (code bug): the nearby search does return exactly the features within
the radius in ascending distance order, but a feature whose distance from the
query point is exactly 0 is annotated with None instead of its distance: the
rendering conditional treats the float 0.0 as falsy. Concretely, the feature
of `exDb5` lies at distance 0 from the query point and is returned by a
radius-500 search with a None annotation. -/
theorem features_near_zero_distance_rendered_none :
    flatGeo.dist (makePoint 4 3) (makePoint 4 3) = 0 ∧
    (features_near flatGeo exDb5 3 4 500).map (fun r => (r.id, r.distance_m)) =
      [(natString 5, none)] := by decide

/-- C6 (code bug): a radius-0 search at a point exactly matching a feature's
location does return that feature, but annotated with None, not with distance
0: the rendering conditional treats the float 0.0 as falsy. -/
theorem features_near_radius_zero_missing_distance :
    flatGeo.dist (makePoint 2 1) (makePoint 2 1) = 0 ∧
    (features_near flatGeo exDb6 1 2 0).map (fun r => (r.id, r.distance_m)) =
      [(natString 8, none)] := by decide
